import Mathlib

/-!
# Verification of the `valuation_service` property-valuation core

Shallow embedding of `app/services/valuation_engine.py` and the
contract-layer validators of `app/models/request.py`.

Modelling conventions:

* Python `Decimal` values are modelled as exact rationals (`ℚ`).  Every
  `Decimal` arising in the engine is an integer multiple of `0.01` whose
  coefficient stays far below the 28-significant-digit default context,
  so `Decimal` arithmetic on them is exact rational arithmetic.
* Python `int` is modelled as `ℤ`.
* `float(...)` conversions applied to the engine's exact `Decimal`
  results before they are stored in the response are modelled as the
  identity: the same conversion is applied to both sides of every
  equality the claims state, and the concrete currency amounts involved
  are exactly representable.
* Exceptions are modelled with `Except`: `ValueError` (the repository's
  `InvalidInput` validation failure, mapped to HTTP 422 by
  `app/api/routes.py`) and `KeyError` (an unexpected failure, mapped to
  HTTP 500) are the two kinds that can escape the engine.
* `PropertyType` is a `str`-mixin enum whose members compare and hash
  equal to their value strings, so the engine's dict lookup
  `BASE_RATES[property_type]` behaves exactly like a lookup keyed by the
  four member strings; the property-type argument is therefore modelled
  as a `String`, with unrecognized strings raising `KeyError`.
* `valuation_date` (the current wall-clock time) is the engine's only
  side effect; it is omitted from the pure model and no claim mentions
  it.
-/

/-- The two exception kinds that can escape the engine:
`ValueError msg` (raised explicitly by the validation checks) and
`KeyError key` (raised by the failed dict lookup `BASE_RATES[...]`). -/
inductive PyErr : Type where
  | valueError (msg : String) : PyErr
  | keyError (key : String) : PyErr
deriving DecidableEq, Repr

/-- `True` exactly when the computation failed with the repository's
`InvalidInput` kind, i.e. a `ValueError` (routed to HTTP 422); a
`KeyError` or a success yields `false`. -/
def isInvalidInput {α : Type} : Except PyErr α → Bool
  | Except.error (PyErr.valueError _) => true
  | _ => false

/-- `ValuationEngine.BASE_RATES`: dict from the four `PropertyType`
members (equivalently their value strings, see the modelling note) to
the `Decimal` base rate per square foot.  An absent key means the
Python lookup raises `KeyError`. -/
def BASE_RATES (property_type : String) : Option ℚ :=
  if property_type = "MULTIFAMILY" then some 200
  else if property_type = "RETAIL" then some 150
  else if property_type = "OFFICE" then some 180
  else if property_type = "INDUSTRIAL" then some 100
  else none

/-- `ValuationEngine.MAX_DEPRECIATION = Decimal("0.40")`. -/
def MAX_DEPRECIATION : ℚ := 40 / 100

/-- `ValuationEngine.ANNUAL_DEPRECIATION = Decimal("0.01")`. -/
def ANNUAL_DEPRECIATION : ℚ := 1 / 100

/-- Round-half-up to an integer (`decimal.ROUND_HALF_UP` at exponent 0):
nearest integer, ties away from zero. -/
def roundHalfUp (x : ℚ) : ℤ :=
  if 0 ≤ x then ⌊x + 1 / 2⌋ else -⌊-x + 1 / 2⌋

/-- `d.quantize(Decimal("0.01"), rounding=ROUND_HALF_UP)`: round to two
fractional digits, half away from zero. -/
def quantize2 (x : ℚ) : ℚ :=
  (roundHalfUp (x * 100) : ℚ) / 100

/-- `str(...)` of an integer-valued `Decimal` constructed from an
integer literal (as all four base rates are): the plain digits, no
fractional part.  Used by the methodology f-string `f"${base_rate}"`. -/
def decimalStr (x : ℚ) : String :=
  toString x.num

/-- Python's `f"{x:.1f}"` on the (non-negative) depreciation
percentage: the value rendered with exactly one fractional digit.  The
engine only ever formats exact whole-number percentages (`float`
noise, at most a few ulps, is far below the 0.05 rounding granularity
of `.1f`, and ties cannot occur at whole numbers), so rounding the
exact value to the nearest tenth reproduces the printed string. -/
def format1f (x : ℚ) : String :=
  toString (roundHalfUp (x * 10) / 10) ++ "." ++ toString (roundHalfUp (x * 10) % 10)

/-- `ValuationBreakdown` (`app/models/response.py`): the three numeric
fields of the calculation breakdown. -/
structure ValuationBreakdown : Type where
  base_value : ℚ
  depreciation_factor : ℚ
  final_value : ℚ
deriving DecidableEq, Repr

/-- `ValuationResponse` (`app/models/response.py`), without the
`valuation_date` timestamp (see the modelling notes). -/
structure ValuationResponse : Type where
  estimated_value : ℚ
  methodology : String
  breakdown : ValuationBreakdown
deriving DecidableEq, Repr

deriving instance DecidableEq for Except

/-- `ValuationEngine.calculate_value`, line for line: validation of
`size_sqft` and `age_years`, base-rate lookup (a `KeyError` if the
type is unrecognized), base value, depreciation factor, final value,
the two `quantize` calls, and the methodology f-string. -/
def calculate_value (property_type : String) (size_sqft : ℤ) (age_years : ℤ) :
    Except PyErr ValuationResponse :=
  if size_sqft ≤ 0 then
    Except.error (PyErr.valueError "Property size must be greater than 0")
  else if age_years < 0 then
    Except.error (PyErr.valueError "Property age cannot be negative")
  else
    match BASE_RATES property_type with
    | none => Except.error (PyErr.keyError property_type)
    | some base_rate =>
      let base_value : ℚ := (size_sqft : ℚ) * base_rate
      let depreciation_factor : ℚ :=
        min ((age_years : ℚ) * ANNUAL_DEPRECIATION) MAX_DEPRECIATION
      let estimated_raw : ℚ := base_value * (1 - depreciation_factor)
      let estimated_value : ℚ := quantize2 estimated_raw
      let base_value_q : ℚ := quantize2 base_value
      let depreciation_percent : ℚ := depreciation_factor * 100
      let methodology : String :=
        "Base rate ($" ++ decimalStr base_rate ++ "/sqft) with "
          ++ format1f depreciation_percent ++ "% age depreciation"
      Except.ok
        { estimated_value := estimated_value
          methodology := methodology
          breakdown :=
            { base_value := base_value_q
              depreciation_factor := depreciation_factor
              final_value := estimated_value } }

/-- `ValuationEngine.get_base_rate`: `return self.BASE_RATES[property_type]`,
a bare dict lookup, so an unrecognized type raises `KeyError`. -/
def get_base_rate (property_type : String) : Except PyErr ℚ :=
  match BASE_RATES property_type with
  | none => Except.error (PyErr.keyError property_type)
  | some r => Except.ok r

/-- `ValuationEngine.calculate_depreciation`: negative-age check, then
`min(Decimal(age_years) * ANNUAL_DEPRECIATION, MAX_DEPRECIATION)`. -/
def calculate_depreciation (age_years : ℤ) : Except PyErr ℚ :=
  if age_years < 0 then
    Except.error (PyErr.valueError "Property age cannot be negative")
  else
    Except.ok (min ((age_years : ℚ) * ANNUAL_DEPRECIATION) MAX_DEPRECIATION)

/-- Contract-layer validation of `size_sqft`
(`app/models/request.py`): the pydantic-v2 core schema enforces the
`Field(..., gt=0)` constraint first (its built-in failure message is
"Input should be greater than 0"); only when it passes does the
`after`-mode `field_validator` `validate_size` run, whose own `v <= 0`
branch is therefore unreachable. -/
def validate_size (v : ℤ) : Except String ℤ :=
  if v ≤ 0 then Except.error "Input should be greater than 0"
  else if v ≤ 0 then Except.error "Property size must be greater than 0"
  else if 10000000 < v then
    Except.error "Property size exceeds maximum allowed (10M sqft)"
  else Except.ok v

/-- Contract-layer validation of `age_years`
(`app/models/request.py`): the `Field(..., ge=0)` constraint runs
first (built-in message "Input should be greater than or equal to 0"),
then the `field_validator` `validate_age`, whose `v < 0` branch is
therefore unreachable. -/
def validate_age (v : ℤ) : Except String ℤ :=
  if v < 0 then Except.error "Input should be greater than or equal to 0"
  else if v < 0 then Except.error "Property age cannot be negative"
  else if 200 < v then
    Except.error "Property age exceeds reasonable limit (200 years)"
  else Except.ok v

/-! ## Arithmetic facts about the embedded decimal operations -/

theorem roundHalfUp_intCast (m : ℤ) : roundHalfUp (m : ℚ) = m := by
  unfold roundHalfUp
  rcases le_or_lt 0 (m:ℚ) with h | h
  · rw [if_pos h, Int.floor_int_add, show ⌊(1/2:ℚ)⌋ = 0 by norm_num, add_zero]
  · rw [if_neg (not_le.mpr h), show (-(m:ℚ)) = ((-m : ℤ) : ℚ) by push_cast; ring,
      Int.floor_int_add, show ⌊(1/2:ℚ)⌋ = 0 by norm_num, add_zero, neg_neg]

/-- Quantizing an exact multiple of `0.01` to two fractional digits is
the identity. -/
theorem quantize2_hundredths (m : ℤ) : quantize2 ((m : ℚ) / 100) = (m : ℚ) / 100 := by
  unfold quantize2
  rw [div_mul_cancel₀ _ (by norm_num : (100:ℚ) ≠ 0), roundHalfUp_intCast]

theorem quantize2_intCast (m : ℤ) : quantize2 (m : ℚ) = (m : ℚ) := by
  have h := quantize2_hundredths (100 * m)
  rw [show (((100 * m : ℤ) : ℚ)) / 100 = (m : ℚ) by push_cast; ring] at h
  exact h

/-- The depreciation factor in closed form: `min(age * 0.01, 0.40)` is
the integer `min age 40` scaled by `1/100`. -/
theorem dep_closed_form (age : ℤ) :
    min ((age : ℚ) * ANNUAL_DEPRECIATION) MAX_DEPRECIATION
      = ((min age 40 : ℤ) : ℚ) / 100 := by
  unfold ANNUAL_DEPRECIATION MAX_DEPRECIATION
  rw [Int.cast_min]
  push_cast
  rw [← min_div_div_right (by norm_num : (0:ℚ) ≤ 100)]
  ring_nf

theorem format1f_intCast (k : ℤ) :
    format1f (k : ℚ) = toString k ++ "." ++ "0" := by
  unfold format1f
  rw [show ((k:ℚ) * 10) = ((10 * k : ℤ) : ℚ) by push_cast; ring, roundHalfUp_intCast,
    show ((10 * k) / 10 : ℤ) = k by omega, show ((10 * k) % 10 : ℤ) = 0 by omega]
  rfl

theorem decimalStr_intCast (R : ℤ) : decimalStr (R : ℚ) = toString R := by
  unfold decimalStr
  rw [Rat.num_intCast]

/-- Every rate in the table is a positive integer number of dollars. -/
theorem BASE_RATES_elim (pt : String) (r : ℚ) (h : BASE_RATES pt = some r) :
    ∃ R : ℤ, r = (R : ℚ) ∧ 0 < R := by
  unfold BASE_RATES at h
  split_ifs at h <;> simp only [Option.some.injEq] at h
  · exact ⟨200, by rw [← h]; norm_num, by norm_num⟩
  · exact ⟨150, by rw [← h]; norm_num, by norm_num⟩
  · exact ⟨180, by rw [← h]; norm_num, by norm_num⟩
  · exact ⟨100, by rw [← h]; norm_num, by norm_num⟩

/-- Closed form of `calculate_value` on valid inputs: with `d := min
age_years 40`, the response is exactly `size·R·(100−d)/100`, the
breakdown holds `size·R`, `d/100` and the same final value, and the
methodology string renders the integer rate and `d.0%`. -/
theorem calculate_value_closed_form (pt : String) (R : ℤ) (size age : ℤ)
    (hr : BASE_RATES pt = some (R : ℚ)) (hs : 0 < size) (ha : 0 ≤ age) :
    calculate_value pt size age = Except.ok
      { estimated_value := ((size * R * (100 - min age 40) : ℤ) : ℚ) / 100
        methodology := "Base rate ($" ++ toString R ++ "/sqft) with "
          ++ (toString (min age 40) ++ "." ++ "0") ++ "% age depreciation"
        breakdown :=
          { base_value := ((size * R : ℤ) : ℚ)
            depreciation_factor := ((min age 40 : ℤ) : ℚ) / 100
            final_value := ((size * R * (100 - min age 40) : ℤ) : ℚ) / 100 } } := by
  unfold calculate_value
  rw [if_neg (by omega : ¬ size ≤ 0), if_neg (by omega : ¬ age < 0), hr]
  simp only []
  rw [dep_closed_form]
  congr 1
  rw [show (size:ℚ) * (R:ℚ) * (1 - ((min age 40 : ℤ):ℚ)/100)
        = ((size * R * (100 - min age 40) : ℤ) : ℚ) / 100 by push_cast; ring,
      quantize2_hundredths, decimalStr_intCast,
      show ((age ⊓ 40 : ℤ):ℚ)/100*100 = ((age ⊓ 40 : ℤ):ℚ) by
        rw [div_mul_cancel₀ _ (by norm_num : (100:ℚ) ≠ 0)],
      format1f_intCast,
      show ((size:ℚ) * (R:ℚ)) = ((size * R : ℤ) : ℚ) by push_cast; ring,
      quantize2_intCast]

/-! ## Claims -/

/-- C1: for every valid input (recognized property type with rate `r`,
`size_sqft > 0`, `age_years ≥ 0`), `calculate_value` succeeds with
`base_value = size_sqft * r`, `estimated_value = breakdown.final_value`,
and `breakdown.final_value` equal to
`base_value * (1 - depreciation_factor)` rounded to 2 fractional digits
half-up. -/
theorem C1_valuation_formula (pt : String) (r : ℚ) (size age : ℤ)
    (hr : BASE_RATES pt = some r) (hs : 0 < size) (ha : 0 ≤ age) :
    ∃ res : ValuationResponse, calculate_value pt size age = Except.ok res
      ∧ res.breakdown.base_value = (size : ℚ) * r
      ∧ res.estimated_value = res.breakdown.final_value
      ∧ res.breakdown.final_value
          = quantize2 (res.breakdown.base_value * (1 - res.breakdown.depreciation_factor)) := by
  obtain ⟨R, hR, hRpos⟩ := BASE_RATES_elim pt r hr
  subst hR
  refine ⟨_, calculate_value_closed_form pt R size age hr hs ha, ?_, rfl, ?_⟩
  · push_cast
    ring
  · simp only []
    rw [show ((size * R : ℤ) : ℚ) * (1 - ((min age 40 : ℤ):ℚ)/100)
          = ((size * R * (100 - min age 40) : ℤ) : ℚ) / 100 by push_cast; ring,
        quantize2_hundredths]

/-- C1 witness: the MULTIFAMILY 50000 sqft, 15-year-old instance. -/
theorem C1_valuation_formula_witness :
    ∃ res : ValuationResponse, calculate_value "MULTIFAMILY" 50000 15 = Except.ok res
      ∧ res.breakdown.base_value = (50000 : ℚ) * 200
      ∧ res.estimated_value = res.breakdown.final_value
      ∧ res.breakdown.final_value
          = quantize2 (res.breakdown.base_value * (1 - res.breakdown.depreciation_factor)) :=
  C1_valuation_formula "MULTIFAMILY" 200 50000 15 (by decide) (by norm_num) (by norm_num)

/-- C2: the five concrete scenarios of the spec, field by field. -/
theorem C2_concrete_scenarios :
    (∃ res, calculate_value "MULTIFAMILY" 50000 15 = Except.ok res
      ∧ res.breakdown.base_value = 10000000
      ∧ res.breakdown.depreciation_factor = 15/100
      ∧ res.estimated_value = 8500000)
  ∧ (∃ res, calculate_value "INDUSTRIAL" 100000 50 = Except.ok res
      ∧ res.breakdown.depreciation_factor = 40/100
      ∧ res.estimated_value = 6000000)
  ∧ (∃ res, calculate_value "RETAIL" 10000 10 = Except.ok res
      ∧ res.estimated_value = 1350000)
  ∧ (∃ res, calculate_value "OFFICE" 25000 5 = Except.ok res
      ∧ res.estimated_value = 4275000)
  ∧ (∃ res, calculate_value "MULTIFAMILY" 10000 0 = Except.ok res
      ∧ res.estimated_value = 2000000
      ∧ res.breakdown.depreciation_factor = 0) := by
  refine ⟨⟨_, calculate_value_closed_form "MULTIFAMILY" 200 50000 15 (by decide) (by norm_num) (by norm_num), ?_, ?_, ?_⟩,
    ⟨_, calculate_value_closed_form "INDUSTRIAL" 100 100000 50 (by decide) (by norm_num) (by norm_num), ?_, ?_⟩,
    ⟨_, calculate_value_closed_form "RETAIL" 150 10000 10 (by decide) (by norm_num) (by norm_num), ?_⟩,
    ⟨_, calculate_value_closed_form "OFFICE" 180 25000 5 (by decide) (by norm_num) (by norm_num), ?_⟩,
    ⟨_, calculate_value_closed_form "MULTIFAMILY" 200 10000 0 (by decide) (by norm_num) (by norm_num), ?_, ?_⟩⟩ <;>
  · simp only []
    norm_num

/-- C3: `calculate_depreciation` equals `min(age * 0.01, 0.40)` for
every non-negative age, is strictly increasing on `[0, 40]`, and is
constant `0.40` from age 40 on. -/
theorem C3_depreciation_law :
    (∀ a : ℤ, 0 ≤ a → calculate_depreciation a
        = Except.ok (min ((a : ℚ) * ANNUAL_DEPRECIATION) MAX_DEPRECIATION))
  ∧ (∀ a b : ℤ, 0 ≤ a → a < b → b ≤ 40 →
      ∃ da db, calculate_depreciation a = Except.ok da
        ∧ calculate_depreciation b = Except.ok db ∧ da < db)
  ∧ (∀ a : ℤ, 40 ≤ a → calculate_depreciation a = Except.ok MAX_DEPRECIATION) := by
  refine ⟨?_, ?_, ?_⟩
  · intro a ha
    unfold calculate_depreciation
    rw [if_neg (by omega : ¬ a < 0)]
  · intro a b ha hab hb40
    refine ⟨min ((a : ℚ) * ANNUAL_DEPRECIATION) MAX_DEPRECIATION,
      min ((b : ℚ) * ANNUAL_DEPRECIATION) MAX_DEPRECIATION, ?_, ?_, ?_⟩
    · unfold calculate_depreciation
      rw [if_neg (by omega : ¬ a < 0)]
    · unfold calculate_depreciation
      rw [if_neg (by omega : ¬ b < 0)]
    · rw [dep_closed_form, dep_closed_form]
      have hmin : min a 40 < min b 40 := by omega
      exact (div_lt_div_iff_of_pos_right (by norm_num : (0:ℚ) < 100)).mpr (by exact_mod_cast hmin)
  · intro a ha
    unfold calculate_depreciation
    rw [if_neg (by omega : ¬ a < 0), dep_closed_form,
      show min a 40 = 40 by omega]
    unfold MAX_DEPRECIATION
    norm_num

/-- C3 witness: ages 10 (`0.10`), the strictly increasing pair `0 < 25`,
and the capped age 50. -/
theorem C3_depreciation_law_witness :
    calculate_depreciation 10
      = Except.ok (min ((10 : ℚ) * ANNUAL_DEPRECIATION) MAX_DEPRECIATION)
  ∧ (∃ da db, calculate_depreciation 0 = Except.ok da
      ∧ calculate_depreciation 25 = Except.ok db ∧ da < db)
  ∧ calculate_depreciation 50 = Except.ok MAX_DEPRECIATION :=
  ⟨C3_depreciation_law.1 10 (by norm_num),
   C3_depreciation_law.2.1 0 25 (by norm_num) (by norm_num) (by norm_num),
   C3_depreciation_law.2.2 50 (by norm_num)⟩

/-- C4 counterexample: an unrecognized property type makes both
`calculate_value` and `get_base_rate` fail with a `KeyError` — the
"unexpected failure" kind that `app/api/routes.py` surfaces as an
internal error — not with the `ValueError` that the repository's
`InvalidInput` validation failures carry. -/
theorem C4_counterexample :
    calculate_value "RESIDENTIAL" 10000 10 = Except.error (PyErr.keyError "RESIDENTIAL")
  ∧ isInvalidInput (calculate_value "RESIDENTIAL" 10000 10) = false
  ∧ get_base_rate "RESIDENTIAL" = Except.error (PyErr.keyError "RESIDENTIAL")
  ∧ isInvalidInput (get_base_rate "RESIDENTIAL") = false := by
  refine ⟨?_, ?_, ?_, ?_⟩ <;> rfl

/-- C4 amended: for every unrecognized property type (with otherwise
valid size and age), `calculate_value` and `get_base_rate` raise
`KeyError` naming the bad value. -/
theorem C4_unrecognized_type_keyerror (pt : String) (size age : ℤ)
    (h : BASE_RATES pt = none) (hs : 0 < size) (ha : 0 ≤ age) :
    calculate_value pt size age = Except.error (PyErr.keyError pt)
  ∧ get_base_rate pt = Except.error (PyErr.keyError pt) := by
  constructor
  · unfold calculate_value
    rw [if_neg (by omega : ¬ size ≤ 0), if_neg (by omega : ¬ age < 0), h]
  · unfold get_base_rate
    rw [h]

/-- C4 amended witness: the spec's own "RESIDENTIAL" example. -/
theorem C4_unrecognized_type_keyerror_witness :
    calculate_value "RESIDENTIAL" 10000 10 = Except.error (PyErr.keyError "RESIDENTIAL")
  ∧ get_base_rate "RESIDENTIAL" = Except.error (PyErr.keyError "RESIDENTIAL") :=
  C4_unrecognized_type_keyerror "RESIDENTIAL" 10000 10 (by decide) (by norm_num) (by norm_num)

/-- C5: for every recognized property type, `calculate_value` signals
an `InvalidInput` (`ValueError`) failure exactly when `size_sqft ≤ 0`
or `age_years < 0`, with the two exact messages, and the calculator
itself accepts any age above 200. -/
theorem C5_calculator_validation (pt : String) (r : ℚ) (size age : ℤ)
    (hr : BASE_RATES pt = some r) :
    (isInvalidInput (calculate_value pt size age) = true ↔ size ≤ 0 ∨ age < 0)
  ∧ (size ≤ 0 → calculate_value pt size age
      = Except.error (PyErr.valueError "Property size must be greater than 0"))
  ∧ (0 < size → age < 0 → calculate_value pt size age
      = Except.error (PyErr.valueError "Property age cannot be negative"))
  ∧ (0 < size → 200 < age → ∃ res, calculate_value pt size age = Except.ok res) := by
  obtain ⟨R, hR, hRpos⟩ := BASE_RATES_elim pt r hr
  subst hR
  have hsize : ∀ hsz : size ≤ 0, calculate_value pt size age
      = Except.error (PyErr.valueError "Property size must be greater than 0") := by
    intro hsz
    unfold calculate_value
    rw [if_pos hsz]
  have hage : ∀ (_ : 0 < size) (_ : age < 0), calculate_value pt size age
      = Except.error (PyErr.valueError "Property age cannot be negative") := by
    intro hsz hag
    unfold calculate_value
    rw [if_neg (by omega : ¬ size ≤ 0), if_pos hag]
  refine ⟨⟨?_, ?_⟩, hsize, hage, ?_⟩
  · intro h
    by_contra hcon
    push_neg at hcon
    rw [calculate_value_closed_form pt R size age hr (by omega) (by omega)] at h
    exact Bool.false_ne_true h
  · rintro (hsz | hag)
    · rw [hsize hsz]
      rfl
    · rcases le_or_lt size 0 with hsz | hsz
      · rw [hsize hsz]
        rfl
      · rw [hage hsz hag]
        rfl
  · intro hsz hag
    exact ⟨_, calculate_value_closed_form pt R size age hr hsz (by omega)⟩

/-- C5 witness: OFFICE at size 10000 and age 300 — accepted by the
calculator even though the contract layer would cap the age at 200. -/
theorem C5_calculator_validation_witness :
    (isInvalidInput (calculate_value "OFFICE" 10000 300) = true
      ↔ (10000 : ℤ) ≤ 0 ∨ (300 : ℤ) < 0)
  ∧ ((10000 : ℤ) ≤ 0 → calculate_value "OFFICE" 10000 300
      = Except.error (PyErr.valueError "Property size must be greater than 0"))
  ∧ ((0 : ℤ) < 10000 → (300 : ℤ) < 0 → calculate_value "OFFICE" 10000 300
      = Except.error (PyErr.valueError "Property age cannot be negative"))
  ∧ ((0 : ℤ) < 10000 → (200 : ℤ) < 300
      → ∃ res, calculate_value "OFFICE" 10000 300 = Except.ok res) :=
  C5_calculator_validation "OFFICE" 180 10000 300 (by decide)

/-- C6 counterexample: at `size_sqft = 0` (and `age_years = -1`) the
contract layer rejects, but with pydantic's built-in constraint
messages — the custom lower-bound messages claimed by the spec are
never produced, because `Field(gt=0)` / `Field(ge=0)` fire before the
`field_validator`s run. -/
theorem C6_counterexample :
    validate_size 0 = Except.error "Input should be greater than 0"
  ∧ validate_size 0 ≠ Except.error "Property size must be greater than 0"
  ∧ validate_age (-1) = Except.error "Input should be greater than or equal to 0"
  ∧ validate_age (-1) ≠ Except.error "Property age cannot be negative" := by
  refine ⟨rfl, ?_, rfl, ?_⟩ <;> decide

/-- C6 amended: contract-layer validation accepts exactly
`0 < size_sqft ≤ 10,000,000` and `0 ≤ age_years ≤ 200`; the
upper-bound violations carry the claimed custom messages, while the
lower-bound violations carry pydantic's built-in constraint messages
("Input should be greater than 0" / "Input should be greater than or
equal to 0") because the `Field` constraints run before the custom
validators, whose lower-bound branches are unreachable. -/
theorem C6_contract_validation (v w : ℤ) :
    ((∃ u, validate_size v = Except.ok u) ↔ 0 < v ∧ v ≤ 10000000)
  ∧ (v ≤ 0 → validate_size v = Except.error "Input should be greater than 0")
  ∧ (10000000 < v → validate_size v
      = Except.error "Property size exceeds maximum allowed (10M sqft)")
  ∧ ((∃ u, validate_age w = Except.ok u) ↔ 0 ≤ w ∧ w ≤ 200)
  ∧ (w < 0 → validate_age w = Except.error "Input should be greater than or equal to 0")
  ∧ (200 < w → validate_age w
      = Except.error "Property age exceeds reasonable limit (200 years)") := by
  unfold validate_size validate_age
  refine ⟨?_, ?_, ?_, ?_, ?_, ?_⟩
  · constructor
    · intro ⟨u, hu⟩
      split_ifs at hu <;> omega
    · intro ⟨h1, h2⟩
      exact ⟨v, by rw [if_neg (by omega), if_neg (by omega), if_neg (by omega)]⟩
  · intro h
    rw [if_pos h]
  · intro h
    rw [if_neg (by omega), if_neg (by omega), if_pos h]
  · constructor
    · intro ⟨u, hu⟩
      split_ifs at hu <;> omega
    · intro ⟨h1, h2⟩
      exact ⟨w, by rw [if_neg (by omega), if_neg (by omega), if_neg (by omega)]⟩
  · intro h
    rw [if_pos h]
  · intro h
    rw [if_neg (by omega), if_neg (by omega), if_pos h]

/-- C6 amended witness: an accepted size, an oversized size, and an
over-aged request. -/
theorem C6_contract_validation_witness :
    (∃ u, validate_size 5000000 = Except.ok u)
  ∧ validate_size 20000000 = Except.error "Property size exceeds maximum allowed (10M sqft)"
  ∧ validate_age 250 = Except.error "Property age exceeds reasonable limit (200 years)" :=
  ⟨(C6_contract_validation 5000000 0).1.mpr (by norm_num),
   (C6_contract_validation 20000000 0).2.2.1 (by norm_num),
   (C6_contract_validation 0 250).2.2.2.2.2 (by norm_num)⟩

/-- C7: for every valid input the methodology string is exactly
`Base rate ($<rate>/sqft) with <d>.0% age depreciation`, where
`<rate>` is the integer dollar rate with no fractional digits and
`<d>.0` renders `depreciation_factor * 100` with one decimal place
(`d = min age_years 40` is always a whole percentage). -/
theorem C7_methodology_format (pt : String) (R : ℤ) (size age : ℤ)
    (hr : BASE_RATES pt = some (R : ℚ)) (hs : 0 < size) (ha : 0 ≤ age) :
    ∃ res, calculate_value pt size age = Except.ok res
      ∧ res.methodology = "Base rate ($" ++ toString R ++ "/sqft) with "
          ++ (toString (min age 40) ++ ".0") ++ "% age depreciation" := by
  refine ⟨_, calculate_value_closed_form pt R size age hr hs ha, ?_⟩
  simp only []
  rw [String.append_assoc (toString (min age 40)) "." "0"]
  rfl

/-- C7 witness: MULTIFAMILY at age 15 renders exactly
`Base rate ($200/sqft) with 15.0% age depreciation`. -/
theorem C7_methodology_format_witness :
    ∃ res, calculate_value "MULTIFAMILY" 10000 15 = Except.ok res
      ∧ res.methodology = "Base rate ($200/sqft) with 15.0% age depreciation" := by
  obtain ⟨res, h1, h2⟩ :=
    C7_methodology_format "MULTIFAMILY" 200 10000 15 (by decide) (by norm_num) (by norm_num)
  exact ⟨res, h1, by rw [h2]; rfl⟩

/-- C8: for a fixed recognized property type and fixed valid size, the
estimated value is non-increasing in the age. -/
theorem C8_value_antitone_in_age (pt : String) (r : ℚ) (size a1 a2 : ℤ)
    (hr : BASE_RATES pt = some r) (hs : 0 < size) (h1 : 0 ≤ a1) (h12 : a1 ≤ a2) :
    ∃ r1 r2, calculate_value pt size a1 = Except.ok r1
      ∧ calculate_value pt size a2 = Except.ok r2
      ∧ r2.estimated_value ≤ r1.estimated_value := by
  obtain ⟨R, hR, hRpos⟩ := BASE_RATES_elim pt r hr
  subst hR
  refine ⟨_, _, calculate_value_closed_form pt R size a1 hr hs h1,
    calculate_value_closed_form pt R size a2 hr hs (le_trans h1 h12), ?_⟩
  simp only []
  have key : size * R * (100 - min a2 40) ≤ size * R * (100 - min a1 40) := by
    have hm : min a1 40 ≤ min a2 40 := by omega
    have hsr : (0:ℤ) ≤ size * R := mul_nonneg (le_of_lt hs) (le_of_lt hRpos)
    exact mul_le_mul_of_nonneg_left (by omega) hsr
  exact div_le_div_of_nonneg_right (by exact_mod_cast key) (by norm_num)

/-- C8 witness: MULTIFAMILY 50000 sqft at ages 10 ≤ 30. -/
theorem C8_value_antitone_in_age_witness :
    ∃ r1 r2, calculate_value "MULTIFAMILY" 50000 10 = Except.ok r1
      ∧ calculate_value "MULTIFAMILY" 50000 30 = Except.ok r2
      ∧ r2.estimated_value ≤ r1.estimated_value :=
  C8_value_antitone_in_age "MULTIFAMILY" 200 50000 10 30 (by decide) (by norm_num)
    (by norm_num) (by norm_num)

/-- C9: for every valid input the estimated value is strictly positive
and equals the breakdown's final value. -/
theorem C9_estimated_value_positive (pt : String) (r : ℚ) (size age : ℤ)
    (hr : BASE_RATES pt = some r) (hs : 0 < size) (ha : 0 ≤ age) :
    ∃ res, calculate_value pt size age = Except.ok res
      ∧ 0 < res.estimated_value
      ∧ res.estimated_value = res.breakdown.final_value := by
  obtain ⟨R, hR, hRpos⟩ := BASE_RATES_elim pt r hr
  subst hR
  refine ⟨_, calculate_value_closed_form pt R size age hr hs ha, ?_, rfl⟩
  simp only []
  have key : (0:ℤ) < size * R * (100 - min age 40) := by
    have h40 : min age 40 ≤ 40 := min_le_right _ _
    exact mul_pos (mul_pos hs hRpos) (by omega)
  exact div_pos (by exact_mod_cast key) (by norm_num)

/-- C9 witness: INDUSTRIAL 100000 sqft at age 50. -/
theorem C9_estimated_value_positive_witness :
    ∃ res, calculate_value "INDUSTRIAL" 100000 50 = Except.ok res
      ∧ 0 < res.estimated_value
      ∧ res.estimated_value = res.breakdown.final_value :=
  C9_estimated_value_positive "INDUSTRIAL" 100 100000 50 (by decide) (by norm_num) (by norm_num)

/-- C10: on every valid input both unrounded products are exact
multiples of `0.01`, the half-up quantization to two fractional digits
leaves them unchanged, and the reported `base_value` and
`estimated_value` are exactly `size * rate` and
`size * rate * (1 - depreciation_factor)`. -/
theorem C10_rounding_is_noop (pt : String) (r : ℚ) (size age : ℤ)
    (hr : BASE_RATES pt = some r) (hs : 0 < size) (ha : 0 ≤ age) :
    (∃ m : ℤ, (size : ℚ) * r = (m : ℚ) / 100)
  ∧ quantize2 ((size : ℚ) * r) = (size : ℚ) * r
  ∧ (∃ res, calculate_value pt size age = Except.ok res
      ∧ res.breakdown.base_value = (size : ℚ) * r
      ∧ res.breakdown.depreciation_factor
          = min ((age : ℚ) * ANNUAL_DEPRECIATION) MAX_DEPRECIATION
      ∧ (∃ m : ℤ, (size : ℚ) * r * (1 - res.breakdown.depreciation_factor) = (m : ℚ) / 100)
      ∧ quantize2 ((size : ℚ) * r * (1 - res.breakdown.depreciation_factor))
          = (size : ℚ) * r * (1 - res.breakdown.depreciation_factor)
      ∧ res.estimated_value = (size : ℚ) * r * (1 - res.breakdown.depreciation_factor)) := by
  obtain ⟨R, hR, hRpos⟩ := BASE_RATES_elim pt r hr
  subst hR
  have hbase : (size : ℚ) * (R : ℚ) = ((size * R * 100 : ℤ) : ℚ) / 100 := by
    push_cast
    ring
  have hest : (size : ℚ) * (R : ℚ) * (1 - ((min age 40 : ℤ) : ℚ) / 100)
      = ((size * R * (100 - min age 40) : ℤ) : ℚ) / 100 := by
    push_cast
    ring
  refine ⟨⟨size * R * 100, hbase⟩, by rw [hbase, quantize2_hundredths], ?_⟩
  refine ⟨_, calculate_value_closed_form pt R size age hr hs ha, ?_, ?_, ?_, ?_, ?_⟩
  · simp only []
    push_cast
    ring
  · simp only []
    rw [dep_closed_form]
  · exact ⟨size * R * (100 - min age 40), by simp only []; exact hest⟩
  · simp only []
    rw [hest, quantize2_hundredths]
  · simp only []
    rw [hest]

/-- C10 witness: OFFICE 3333 sqft at age 7 (the repository's own
"non-round" rounding-precision test input). -/
theorem C10_rounding_is_noop_witness :
    (∃ m : ℤ, (3333 : ℚ) * 180 = (m : ℚ) / 100)
  ∧ quantize2 ((3333 : ℚ) * 180) = (3333 : ℚ) * 180
  ∧ (∃ res, calculate_value "OFFICE" 3333 7 = Except.ok res
      ∧ res.breakdown.base_value = (3333 : ℚ) * 180
      ∧ res.breakdown.depreciation_factor
          = min ((7 : ℚ) * ANNUAL_DEPRECIATION) MAX_DEPRECIATION
      ∧ (∃ m : ℤ, (3333 : ℚ) * 180 * (1 - res.breakdown.depreciation_factor) = (m : ℚ) / 100)
      ∧ quantize2 ((3333 : ℚ) * 180 * (1 - res.breakdown.depreciation_factor))
          = (3333 : ℚ) * 180 * (1 - res.breakdown.depreciation_factor)
      ∧ res.estimated_value = (3333 : ℚ) * 180 * (1 - res.breakdown.depreciation_factor)) :=
  C10_rounding_is_noop "OFFICE" 180 3333 7 (by decide) (by norm_num) (by norm_num)
